import Mathlib

set_option maxRecDepth 8192

/-!
Verification development for the AI documentation processor
(src/bin/doc-ai-processor.py).

The Python program is shallowly embedded as pure Lean functions:

* strings are `List Char`, byte sequences are `List Nat` (each entry a byte
  value below 256);
* side effects (provider calls, file writes, stderr diagnostics) are recorded
  in an explicit `Event` trace returned next to the value;
* the AI provider, the clock and the environment are supplied by an `Oracle`
  record, so a run of the program is a pure function of its inputs and oracle;
* raised Python exceptions become `Except PyErr` results;
* the Python `json` module is modelled by an executable recursive-descent
  decoder `loads` and an `indent=2` encoder `dumpJson2`.  JSON numbers are
  modelled as integers: float handling is outside the model, so `loads`
  rejects fractional and exponent forms, and unpaired `\uXXXX` surrogate
  escapes are rejected as well (Lean `Char` holds scalar values only).
-/

namespace DocAI

/-! ## JSON values (Python `json` module model) -/

/-- JSON values as produced by `json.loads`: objects are insertion-ordered
key/value lists, numbers are integers (floats are outside the model). -/
inductive JVal where
  | null : JVal
  | bool : Bool → JVal
  | num : Int → JVal
  | str : List Char → JVal
  | arr : List JVal → JVal
  | obj : List (List Char × JVal) → JVal

/-- Whitespace skipped between JSON tokens by the Python decoder:
exactly space, tab, newline and carriage return. -/
def jsonWs (c : Char) : Bool :=
  c == ' ' || c == '\t' || c == '\n' || c == '\r'

/-- Skip inter-token whitespace. -/
def dropJsonWs (l : List Char) : List Char := l.dropWhile jsonWs

/-- Value of one hex digit, upper or lower case. -/
def hexDigitVal (c : Char) : Option Nat :=
  if '0' ≤ c ∧ c ≤ '9' then some (c.toNat - 48)
  else if 'a' ≤ c ∧ c ≤ 'f' then some (c.toNat - 87)
  else if 'A' ≤ c ∧ c ≤ 'F' then some (c.toNat - 55)
  else none

/-- Value of a four-hex-digit escape body. -/
def hex4Val (a b c d : Char) : Option Nat := do
  let x ← hexDigitVal a
  let y ← hexDigitVal b
  let z ← hexDigitVal c
  let w ← hexDigitVal d
  pure (4096 * x + 256 * y + 16 * z + w)

/-- String body decoder (after the opening quote), fuelled.  Mirrors the strict
Python decoder: raw control characters below 0x20 are rejected, the eight
short escapes are decoded, `\uXXXX` escapes are decoded with surrogate-pair
combination; unpaired surrogates are rejected (model restriction). -/
def parseStrF : Nat → List Char → Option (List Char × List Char)
  | 0, _ => none
  | _ + 1, [] => none
  | f + 1, c :: r =>
    if c = '"' then some ([], r)
    else if c = '\\' then
      match r with
      | 'u' :: h1 :: h2 :: h3 :: h4 :: r2 =>
        (match hex4Val h1 h2 h3 h4 with
         | none => none
         | some n =>
           if 55296 ≤ n ∧ n ≤ 56319 then
             match r2 with
             | '\\' :: 'u' :: g1 :: g2 :: g3 :: g4 :: r3 =>
               (match hex4Val g1 g2 g3 g4 with
                | some m =>
                  if 56320 ≤ m ∧ m ≤ 57343 then
                    (parseStrF f r3).map
                      (fun p => (Char.ofNat (65536 + 1024 * (n - 55296) + (m - 56320)) :: p.1, p.2))
                  else none
                | none => none)
             | _ => none
           else if 56320 ≤ n ∧ n ≤ 57343 then none
           else (parseStrF f r2).map (fun p => (Char.ofNat n :: p.1, p.2)))
      | e :: r2 =>
        (match (if e = '"' then some '"' else if e = '\\' then some '\\'
                else if e = '/' then some '/' else if e = 'b' then some (Char.ofNat 8)
                else if e = 'f' then some (Char.ofNat 12) else if e = 'n' then some '\n'
                else if e = 'r' then some '\r' else if e = 't' then some '\t'
                else none : Option Char) with
         | some ch => (parseStrF f r2).map (fun p => (ch :: p.1, p.2))
         | none => none)
      | [] => none
    else if c.toNat < 32 then none
    else (parseStrF f r).map (fun p => (c :: p.1, p.2))

/-- Digits of a decimal literal folded to a number. -/
def digitsToNat (l : List Char) : Nat :=
  l.foldl (fun a c => 10 * a + (c.toNat - 48)) 0

/-- Unsigned integer part of a JSON number: `0`, or a nonzero digit followed
by digits; a leading zero followed by a digit is rejected (as in Python). -/
def parseIntCore (l : List Char) : Option (Int × List Char) :=
  match l with
  | '0' :: r =>
    (match r with
     | c :: _ => if c.isDigit then none else some ((0 : Int), r)
     | [] => some ((0 : Int), []))
  | c :: _ =>
    if c.isDigit then
      let p := l.span Char.isDigit
      some ((digitsToNat p.1 : Int), p.2)
    else none
  | [] => none

/-- JSON number token.  A following `.`, `e` or `E` would make a Python float,
which the model does not represent, so such input is rejected. -/
def parseNumTok (l : List Char) : Option (Int × List Char) :=
  match (match l with
         | '-' :: r => (parseIntCore r).map (fun p => (-p.1, p.2))
         | _ => parseIntCore l) with
  | some (v, rest) =>
    (match rest with
     | c :: _ => if c = '.' ∨ c = 'e' ∨ c = 'E' then none else some (v, rest)
     | [] => some (v, []))
  | none => none

mutual

/-- Fuelled JSON value decoder, mirroring the recursive-descent grammar of the
Python decoder.  Fuel `l.length + 1` always suffices because at least one
character is consumed before every nested call. -/
def parseVal : Nat → List Char → Option (JVal × List Char)
  | 0, _ => none
  | f + 1, l =>
    match l with
    | 'n' :: 'u' :: 'l' :: 'l' :: r => some (JVal.null, r)
    | 't' :: 'r' :: 'u' :: 'e' :: r => some (JVal.bool true, r)
    | 'f' :: 'a' :: 'l' :: 's' :: 'e' :: r => some (JVal.bool false, r)
    | '"' :: r => (parseStrF f r).map (fun p => (JVal.str p.1, p.2))
    | '{' :: r =>
      (match dropJsonWs r with
       | '}' :: r2 => some (JVal.obj [], r2)
       | r1 => (parseMembersF f r1).map (fun p => (JVal.obj p.1, p.2)))
    | '[' :: r =>
      (match dropJsonWs r with
       | ']' :: r2 => some (JVal.arr [], r2)
       | r1 => (parseItemsF f r1).map (fun p => (JVal.arr p.1, p.2)))
    | c :: _ =>
      if c = '-' ∨ c.isDigit then (parseNumTok l).map (fun p => (JVal.num p.1, p.2))
      else none
    | [] => none

/-- Object members: at a key, expecting `"key" : value` then `,` or `}`. -/
def parseMembersF : Nat → List Char → Option (List (List Char × JVal) × List Char)
  | 0, _ => none
  | f + 1, l =>
    match l with
    | '"' :: r =>
      (match parseStrF f r with
       | none => none
       | some (k, r1) =>
         match dropJsonWs r1 with
         | ':' :: r2 =>
           (match parseVal f (dropJsonWs r2) with
            | none => none
            | some (v, r3) =>
              match dropJsonWs r3 with
              | ',' :: r4 => (parseMembersF f (dropJsonWs r4)).map (fun p => ((k, v) :: p.1, p.2))
              | '}' :: r4 => some ([(k, v)], r4)
              | _ => none)
         | _ => none)
    | _ => none

/-- Array items: at a value, expecting `value` then `,` or `]`. -/
def parseItemsF : Nat → List Char → Option (List JVal × List Char)
  | 0, _ => none
  | f + 1, l =>
    match parseVal f l with
    | none => none
    | some (v, r) =>
      match dropJsonWs r with
      | ',' :: r2 => (parseItemsF f (dropJsonWs r2)).map (fun p => (v :: p.1, p.2))
      | ']' :: r2 => some ([v], r2)
      | _ => none

end

/-- Model of `json.loads`: optional leading whitespace, one value, optional
trailing whitespace, end of input. -/
def loads (l : List Char) : Option JVal :=
  match parseVal (l.length + 1) (dropJsonWs l) with
  | some (v, rest) => if dropJsonWs rest = [] then some v else none
  | none => none

/-! ## Stage-1 fence matcher

Model of `re.search(r'```(?:json)?\s*(\{.*?\})\s*```', response, re.DOTALL)`.
The pattern is deterministic once leftmost-match and lazy-quantifier semantics
are spelled out: starting positions are tried left to right; at a position the
literal fence must match, the optional `json` tag is consumed when present
(backtracking over it can never help because `\s*\{` cannot match a leading
`j`), `\s*` before the brace is a maximal whitespace run (backtracking cannot
help because a backtick is not whitespace), and the lazy body ends at the
first `}` that is followed by a whitespace run and a closing fence. -/

/-- Backtick character (code 96). -/
def btick : Char := Char.ofNat 96

/-- The literal fence token. -/
def fenceMark : List Char := [btick, btick, btick]

/-- The optional tag after the opening fence. -/
def jsonTag : List Char := ['j', 's', 'o', 'n']

/-- Characters matched by the regex class `\s` (ASCII part). -/
def reWsChar (c : Char) : Bool :=
  c == ' ' || c == '\t' || c == '\n' || c == '\r' || c == '\x0b' || c == '\x0c'

/-- Maximal `\s*` run. -/
def dropReWs (l : List Char) : List Char := l.dropWhile reWsChar

/-- Does `\s*```` match a prefix of `l`? -/
def fenceClose (l : List Char) : Bool := fenceMark.isPrefixOf (dropReWs l)

/-- Lazy scan for the body of `(\{.*?\})` after the opening brace: the
captured body ends at the first `}` whose tail matches `\s*````. -/
def lazyCapture : List Char → Option (List Char)
  | [] => none
  | c :: r =>
    if c == '}' && fenceClose r then some ['}']
    else (lazyCapture r).map (fun b => c :: b)

/-- Attempt the whole pattern at one starting position. -/
def tryFence (l : List Char) : Option (List Char) :=
  if fenceMark.isPrefixOf l then
    let r1 := l.drop 3
    let r2 := if jsonTag.isPrefixOf r1 then r1.drop 4 else r1
    match dropReWs r2 with
    | '{' :: rest => (lazyCapture rest).map (fun b => '{' :: b)
    | _ => none
  else none

/-- Leftmost search: the first starting position where the pattern matches
yields `group(1)`. -/
def searchFence : List Char → Option (List Char)
  | [] => none
  | c :: r =>
    match tryFence (c :: r) with
    | some cap => some cap
    | none => searchFence r

/-- Does the text contain a triple-backtick anywhere?  When it does not, the
fence pattern cannot match. -/
def hasTriple : List Char → Bool
  | [] => false
  | c :: r => fenceMark.isPrefixOf (c :: r) || hasTriple r

/-! ## Stage-2 brace-span fallback and the extraction pipeline -/

/-- Model of Python `str.find` for a single character: first index or `-1`. -/
def findIdx (c : Char) : List Char → Option Nat
  | [] => none
  | x :: r => if x == c then some 0 else (findIdx c r).map (· + 1)

/-- Model of Python `str.rfind` for a single character: last index or `-1`. -/
def rfindIdx (c : Char) : List Char → Option Nat
  | [] => none
  | x :: r =>
    match rfindIdx c r with
    | some i => some (i + 1)
    | none => if x == c then some 0 else none

/-- `str.find` with the Python `-1` convention. -/
def pyFind (c : Char) (l : List Char) : Int :=
  match findIdx c l with
  | some i => (i : Int)
  | none => -1

/-- `str.rfind` with the Python `-1` convention. -/
def pyRfind (c : Char) (l : List Char) : Int :=
  match rfindIdx c l with
  | some i => (i : Int)
  | none => -1

/-- Python slice `l[a:b]`, adequate for the guarded case `0 ≤ a ≤ b` used by
the extractor. -/
def pySlice (l : List Char) (a b : Int) : List Char :=
  (l.drop a.toNat).take (b.toNat - a.toNat)

/-- Stage 2 of the extractor: first `{`, last `}`, parse the inclusive span.
Mirrors `generate_index` lines 243-249: any parse failure yields nothing. -/
def stage2Parse (r : List Char) : Option JVal :=
  let js := pyFind '{' r
  let je := pyRfind '}' r + 1
  if js ≥ 0 ∧ je > js then loads (pySlice r js je) else none

/-- Parse attempts made on the working string `r` (after any fence capture has
replaced the response): direct `json.loads`, then the brace-span fallback. -/
def extractStagesR (r : List Char) : Option JVal :=
  match loads r with
  | some v => some v
  | none => stage2Parse r

/-- The full extraction pipeline of `generate_index`: the fence capture, when
the pattern matches, replaces the response before any parse is attempted. -/
def extractStages (response : List Char) : Option JVal :=
  extractStagesR ((searchFence response).getD response)

/-! ## The `indent=2` JSON encoder (model of `json.dump(index, f, indent=2)`) -/

/-- Lower-case hex digit. -/
def hexDigitLower (n : Nat) : Char :=
  if n < 10 then Char.ofNat (48 + n) else Char.ofNat (87 + n)

/-- Four lower-case hex digits. -/
def hex4 (n : Nat) : List Char :=
  [hexDigitLower (n / 4096 % 16), hexDigitLower (n / 256 % 16),
   hexDigitLower (n / 16 % 16), hexDigitLower (n % 16)]

/-- Escape one character as the default (`ensure_ascii=True`) encoder does:
printable ASCII passes through, the short escapes are used where they exist,
everything else becomes `\uXXXX`, with surrogate pairs above U+FFFF. -/
def escChar (c : Char) : List Char :=
  if c = '"' then ['\\', '"']
  else if c = '\\' then ['\\', '\\']
  else if c = '\n' then ['\\', 'n']
  else if c = '\r' then ['\\', 'r']
  else if c = '\t' then ['\\', 't']
  else if c.toNat = 8 then ['\\', 'b']
  else if c.toNat = 12 then ['\\', 'f']
  else if 32 ≤ c.toNat ∧ c.toNat ≤ 126 then [c]
  else if c.toNat < 65536 then '\\' :: 'u' :: hex4 c.toNat
  else
    ('\\' :: 'u' :: hex4 (55296 + (c.toNat - 65536) / 1024)) ++
      ('\\' :: 'u' :: hex4 (56320 + (c.toNat - 65536) % 1024))

/-- Encode a JSON string literal. -/
def dumpStr (s : List Char) : List Char :=
  '"' :: (s.map escChar).flatten ++ ['"']

/-- Indentation for one nesting level (`indent=2`). -/
def indentOf (lvl : Nat) : List Char := List.replicate (2 * lvl) ' '

mutual

/-- Pretty-printing encoder at a nesting level, producing exactly the layout
of `json.dumps(v, indent=2)`: item separator `,`, key separator `: `, empty
containers on one line. -/
def dumpVal : Nat → JVal → List Char
  | _, JVal.null => ['n', 'u', 'l', 'l']
  | _, JVal.bool true => ['t', 'r', 'u', 'e']
  | _, JVal.bool false => ['f', 'a', 'l', 's', 'e']
  | _, JVal.num n => (toString n).data
  | _, JVal.str s => dumpStr s
  | _, JVal.arr [] => ['[', ']']
  | lvl, JVal.arr (x :: xs) =>
    '[' :: '\n' :: (indentOf (lvl + 1) ++ dumpItems (lvl + 1) (x :: xs) ++
      '\n' :: (indentOf lvl ++ [']']))
  | _, JVal.obj [] => ['{', '}']
  | lvl, JVal.obj (kv :: xs) =>
    '{' :: '\n' :: (indentOf (lvl + 1) ++ dumpMembers (lvl + 1) (kv :: xs) ++
      '\n' :: (indentOf lvl ++ ['}']))
termination_by _lvl v => sizeOf v

/-- Comma-and-newline separated array items. -/
def dumpItems : Nat → List JVal → List Char
  | _, [] => []
  | lvl, [x] => dumpVal lvl x
  | lvl, x :: y :: ys =>
    dumpVal lvl x ++ ',' :: '\n' :: (indentOf lvl ++ dumpItems lvl (y :: ys))
termination_by _lvl l => sizeOf l

/-- Comma-and-newline separated object members. -/
def dumpMembers : Nat → List (List Char × JVal) → List Char
  | _, [] => []
  | lvl, [(k, v)] => dumpStr k ++ ':' :: ' ' :: dumpVal lvl v
  | lvl, (k, v) :: y :: ys =>
    dumpStr k ++ ':' :: ' ' :: dumpVal lvl v ++
      ',' :: '\n' :: (indentOf lvl ++ dumpMembers lvl (y :: ys))
termination_by _lvl l => sizeOf l

end

/-- Model of `json.dump(v, f, indent=2)`: the serialized text written to the
index artifact. -/
def dumpJson2 (v : JVal) : List Char := dumpVal 0 v

/-! ## Reading the section text (UTF-8 with latin-1 fallback) -/

/-- Is a byte a UTF-8 continuation byte? -/
def contByte (b : Nat) : Bool := 128 ≤ b && b ≤ 191

/-- Strict UTF-8 decoder over byte values, mirroring the `utf-8` codec in
strict mode: overlong encodings, surrogates, out-of-range sequences and
truncated sequences are all rejected. -/
def utf8Decode : List Nat → Option (List Char)
  | [] => some []
  | b :: r =>
    if b ≤ 127 then (utf8Decode r).map (fun t => Char.ofNat b :: t)
    else if 194 ≤ b ∧ b ≤ 223 then
      match r with
      | b2 :: r2 =>
        if contByte b2 then
          (utf8Decode r2).map (fun t => Char.ofNat ((b - 192) * 64 + (b2 - 128)) :: t)
        else none
      | [] => none
    else if 224 ≤ b ∧ b ≤ 239 then
      match r with
      | b2 :: b3 :: r2 =>
        if (if b = 224 then 160 ≤ b2 && b2 ≤ 191
            else if b = 237 then 128 ≤ b2 && b2 ≤ 159
            else contByte b2) && contByte b3 then
          (utf8Decode r2).map
            (fun t => Char.ofNat ((b - 224) * 4096 + (b2 - 128) * 64 + (b3 - 128)) :: t)
        else none
      | _ => none
    else if 240 ≤ b ∧ b ≤ 244 then
      match r with
      | b2 :: b3 :: b4 :: r2 =>
        if (if b = 240 then 144 ≤ b2 && b2 ≤ 191
            else if b = 244 then 128 ≤ b2 && b2 ≤ 143
            else contByte b2) && (contByte b3 && contByte b4) then
          (utf8Decode r2).map
            (fun t => Char.ofNat ((b - 240) * 262144 + (b2 - 128) * 4096 +
              (b3 - 128) * 64 + (b4 - 128)) :: t)
        else none
      | _ => none
    else none

/-- The latin-1 decoder: total over byte values, byte `b` becomes U+00`b`. -/
def latin1Decode (bs : List Nat) : List Char :=
  bs.map (fun b => Char.ofNat (b % 256))

/-- Universal-newline translation performed by Python text-mode `open` with
the default `newline=None`: a CRLF pair and a lone CR both become LF.  It
runs after decoding, in both the UTF-8 read and the latin-1 fallback. -/
def nlTranslate : List Char → List Char
  | [] => []
  | '\r' :: '\n' :: r => '\n' :: nlTranslate r
  | '\r' :: r => '\n' :: nlTranslate r
  | c :: r => c :: nlTranslate r

/-- The read step of `process_section` (lines 310-317): decode as UTF-8, and
on failure fall back to latin-1, which accepts every byte sequence; both are
text-mode reads, so universal-newline translation applies to the decoded
characters. -/
def readText (bs : List Nat) : List Char :=
  match utf8Decode bs with
  | some t => nlTranslate t
  | none => nlTranslate (latin1Decode bs)

/-- Characters stripped by Python `str.strip()` (`str.isspace`), restricted to
the Latin-1 range; wider Unicode whitespace is outside the model. -/
def pyStrWsChar (c : Char) : Bool :=
  reWsChar c || c == '\x1c' || c == '\x1d' || c == '\x1e' || c == '\x1f' ||
    c == '\x85' || c == '\xa0'

/-- `not text.strip()`: the text is empty or whitespace-only. -/
def isBlank (l : List Char) : Bool := l.all pyStrWsChar

/-! ## Data model: section metadata, errors, events, oracle -/

/-- Section metadata record consumed by prompt construction and output
naming (the `section_info` dict built by `main`). -/
structure SectionInfo where
  name : List Char
  title : List Char
  description : List Char
  doc_version : List Char
  source_name : List Char

/-- Python exceptions raised by the processor, by exception class. -/
inductive PyErr where
  | runtimeError (msg : List Char)
  | valueError (msg : List Char)
deriving DecidableEq

/-- The fatal empty-input error of `process_section` line 320; this is the
`EmptyInputError` of the specification. -/
def EmptyInputError (text_file : List Char) : PyErr :=
  PyErr.runtimeError ("Extracted text is empty: ".data ++ text_file)

/-- The fatal unparsable-index error of `generate_index` line 274; this is the
`StructuredOutputError` of the specification.  `e` is the rendering of the
underlying parse error. -/
def StructuredOutputError (e : List Char) : PyErr :=
  PyErr.runtimeError ("Failed to parse AI-generated JSON: ".data ++ e)

/-- Observable side effects of a run, in order: provider round trips, file
writes, and stderr diagnostics.  Routine progress prints are not recorded;
the DEBUG diagnostics of the forensics paths are. -/
inductive Event where
  | aiCall (system : List Char) (prompt : List Char)
  | writeFile (dir : List Char) (name : List Char) (content : List Char)
  | log (msg : List Char)
deriving DecidableEq

/-- Wall-clock reading used by `datetime.now()`. -/
structure PyDateTime where
  year : Nat
  month : Nat
  day : Nat
  hour : Nat
  minute : Nat
  second : Nat

/-- Decimal digits zero-padded on the left to `w` places (`strftime` style). -/
def padNum (w : Nat) (n : Nat) : List Char :=
  List.replicate (w - (toString n).data.length) '0' ++ (toString n).data

/-- `datetime.now().strftime('%Y%m%d-%H%M%S')`: the second-resolution
timestamp embedded in forensics file names. -/
def fmtTimestamp (t : PyDateTime) : List Char :=
  padNum 4 t.year ++ padNum 2 t.month ++ padNum 2 t.day ++
    '-' :: (padNum 2 t.hour ++ padNum 2 t.minute ++ padNum 2 t.second)

/-- External world supplied to a run: the provider responses, the clock, the
`OUTPUT_DIR` environment variable, the rendering of the parse error and of a
possible forensics write error, and whether the forensics write succeeds. -/
structure Oracle where
  summaryResponse : List Char
  indexResponse : List Char
  parseErrText : List Char
  writeErrText : List Char
  outputDir : List Char
  isoNow : List Char
  now : PyDateTime
  forensicsOk : Bool

/-- Path joining (`Path / name`), modelled as a separator concatenation. -/
def joinPath (dir name : List Char) : List Char := dir ++ '/' :: name

/-! ## Prompt construction -/

/-- Truncation marker appended when the source text was cut
(`"... [text truncated for length] ..."`). -/
def truncMarker : List Char := "... [text truncated for length] ...".data

/-- System prompt of the summary task (lines 107-117). -/
def summarySystemPrompt : List Char :=
  ("You are a technical documentation expert. Your task is to create a comprehensive, structured summary optimized for LLM consumption.\n\nFocus on:\n- Key concepts, workflows, and features\n- Glossary terms with precise definitions\n- Version-specific behaviors and caveats\n- Common pitfalls and troubleshooting\n- Hierarchical topic organization\n- Mermaid diagrams for visual concepts (workflows, hierarchies, state machines)\n\nOutput format: Clean Markdown with semantic structure. Use headers, lists, tables, and code blocks appropriately.").data

/-- Everything of the summary prompt before the embedded source text
(lines 124-150). -/
def summaryHead (info : SectionInfo) : List Char :=
  "# Documentation Summary Task\n\n**Section:** ".data ++ info.title ++
    " (".data ++ info.name ++ ")\n**Document Version:** ".data ++ info.doc_version ++
    "\n**Description:** ".data ++ info.description ++
    ("\n\nProcess the following documentation excerpt and create a comprehensive structured summary.\n\n## Requirements\n\n1. **Overview** - Brief introduction to the section\x27s purpose and scope\n2. **Key Concepts** - Main ideas, organized hierarchically\n3. **Glossary** - Technical terms with definitions\n4. **Workflows** - Step-by-step procedures (with Mermaid flowcharts where applicable)\n5. **Features & Tools** - Detailed breakdown of capabilities\n6. **Version-Specific Notes** - Behaviors tied to specific versions (flag with confidence level)\n7. **Common Issues** - Pitfalls, errors, troubleshooting steps\n8. **Cross-References** - Related topics mentioned in the text\n\n## Mermaid Diagram Guidelines\n- Use flowcharts for workflows\n- Use graph diagrams for hierarchies/relationships\n- Use sequence diagrams for interactions\n- Embed directly in Markdown with ```mermaid code blocks\n\n## Source Text\n\n").data

/-- Everything of the summary prompt after the truncation conditional. -/
def summaryTail : List Char :=
  "\n\nGenerate the structured summary now.".data

/-- The summary prompt f-string (lines 124-155): the source text is embedded
as `text[:50000]`, and the truncation marker is appended exactly when
`len(text) > 50000`. -/
def summaryPrompt (info : SectionInfo) (text : List Char) : List Char :=
  summaryHead info ++ text.take 50000 ++ "  \n\n".data ++
    (if 50000 < text.length then truncMarker else []) ++ summaryTail

/-- System prompt of the index task (lines 180-189). -/
def indexSystemPrompt : List Char :=
  ("You are creating a searchable index for LLM-based documentation retrieval. \n\nOutput must be valid JSON with:\n- concepts: list of key concepts with descriptions\n- terms: technical terms with context\n- topics: hierarchical topic clusters\n- patterns: user intent patterns (how-to, what-is, troubleshooting)\n- cross_refs: related concepts mentioned\n\nBe precise and comprehensive.").data

/-- Everything of the index prompt before the embedded source text
(lines 194-225), including the literal example JSON schema. -/
def indexHead (info : SectionInfo) : List Char :=
  "# Index Generation Task\n\n**Section:** ".data ++ info.title ++
    " (".data ++ info.name ++
    (")\n\nCreate a comprehensive searchable index from the documentation text below.\n\n## Required JSON Structure\n\n\x7b\n  \"section\": \"").data ++
    info.name ++ "\",\n  \"title\": \"".data ++ info.title ++
    ("\",\n  \"concepts\": [\n    \x7b\"name\": \"concept_name\", \"description\": \"brief explanation\", \"relevance\": \"high|medium|low\"\x7d\n  ],\n  \"terms\": [\n    \x7b\"term\": \"technical_term\", \"definition\": \"meaning\", \"context\": \"where it\x27s used\"\x7d\n  ],\n  \"topics\": [\n    \x7b\"category\": \"main_topic\", \"subtopics\": [\"sub1\", \"sub2\"], \"keywords\": [\"kw1\", \"kw2\"]\x7d\n  ],\n  \"patterns\": \x7b\n    \"how_to\": [\"task descriptions\"],\n    \"what_is\": [\"concept queries\"],\n    \"troubleshooting\": [\"problem patterns\"]\n  \x7d,\n  \"cross_refs\": [\n    \x7b\"from\": \"concept_a\", \"to\": \"concept_b\", \"relationship\": \"uses|requires|relates\"\x7d\n  ]\n\x7d\n\n## Source Text\n\n").data

/-- Everything of the index prompt after the truncation conditional. -/
def indexTail : List Char :=
  "\n\nGenerate the index as valid JSON now. Output ONLY the JSON, no additional text.".data

/-- The index prompt f-string (lines 194-230): same truncation policy as the
summary prompt. -/
def indexPrompt (info : SectionInfo) (text : List Char) : List Char :=
  indexHead info ++ text.take 50000 ++ "\n\n".data ++
    (if 50000 < text.length then truncMarker else []) ++ indexTail

/-! ## Provider client construction (`AIProcessor._setup_client`) -/

/-- Import availability and credential environment of the process. -/
structure PyEnv where
  anthropic_available : Bool
  openai_available : Bool
  anthropic_api_key : Option (List Char)
  openai_api_key : Option (List Char)

/-- A constructed provider client with its resolved model name. -/
structure AIClient where
  provider : List Char
  api_key : List Char
  model : List Char
deriving DecidableEq

/-- `str.lower` (ASCII part, as used on the provider name). -/
def pyLower (l : List Char) : List Char := l.map Char.toLower

/-- Model of `AIProcessor.__init__`/`_setup_client` (lines 33-70): the
provider name is lower-cased, the provider package must be importable, the
credential is read from the provider-specific environment variable and its
absence (`os.getenv` returning nothing, or an empty string) raises
immediately, before any request can exist; an unknown provider raises
`ValueError`.  A falsy `model` argument is replaced by the provider
default. -/
def setup_client (provider0 : List Char) (model : Option (List Char))
    (env : PyEnv) : Except PyErr AIClient :=
  let provider := pyLower provider0
  if provider = "anthropic".data then
    if env.anthropic_available = false then
      Except.error (PyErr.runtimeError
        ("anthropic package not installed. Run: pip install anthropic".data))
    else
      match env.anthropic_api_key with
      | none =>
        Except.error (PyErr.runtimeError
          ("ANTHROPIC_API_KEY environment variable not set".data))
      | some k =>
        if k = [] then
          Except.error (PyErr.runtimeError
            ("ANTHROPIC_API_KEY environment variable not set".data))
        else
          Except.ok
            { provider := provider, api_key := k,
              model :=
                match model with
                | some m => if m = [] then "claude-sonnet-4-5-20250929".data else m
                | none => "claude-sonnet-4-5-20250929".data }
  else if provider = "openai".data then
    if env.openai_available = false then
      Except.error (PyErr.runtimeError
        ("openai package not installed. Run: pip install openai".data))
    else
      match env.openai_api_key with
      | none =>
        Except.error (PyErr.runtimeError
          ("OPENAI_API_KEY environment variable not set".data))
      | some k =>
        if k = [] then
          Except.error (PyErr.runtimeError
            ("OPENAI_API_KEY environment variable not set".data))
        else
          Except.ok
            { provider := provider, api_key := k,
              model :=
                match model with
                | some m => if m = [] then "gpt-4-turbo-preview".data else m
                | none => "gpt-4-turbo-preview".data }
  else
    Except.error (PyErr.valueError ("Unsupported AI provider: ".data ++ provider))

/-! ## Summary and index generation with forensics -/

/-- Forensics events of the short-summary anomaly (lines 160-174): the write
of the captured response, or the caught-and-logged write failure. -/
def shortSummaryEvents (info : SectionInfo) (o : Oracle) (response : List Char) :
    List Event :=
  let fname := "FAILED-summary-response-".data ++ info.name ++ "-".data ++
    fmtTimestamp o.now ++ ".txt".data
  let content := ("=== AI Response (Suspiciously Short Summary) ===\n".data ++
    "Section: ".data ++ info.title ++ "\n".data ++
    "Timestamp: ".data ++ o.isoNow ++ "\n".data ++
    "Response length: ".data ++ (toString response.length).data ++
    " chars (expected thousands)\n".data ++
    "\n=== Full Response ===\n".data ++ response)
  if o.forensicsOk then
    [Event.writeFile o.outputDir fname content,
     Event.log ("DEBUG: Suspiciously short summary saved to: ".data ++
       joinPath o.outputDir fname)]
  else
    [Event.log ("DEBUG: Failed to save forensics file: ".data ++ o.writeErrText)]

/-- Model of `AIProcessor.generate_summary` (lines 105-176): one provider
call; a response under 100 characters triggers best-effort forensics capture,
and the response is returned either way. -/
def generate_summary (info : SectionInfo) (text : List Char) (o : Oracle) :
    List Char × List Event :=
  let callEv := Event.aiCall summarySystemPrompt (summaryPrompt info text)
  let response := o.summaryResponse
  if response.length < 100 then
    (response, callEv :: shortSummaryEvents info o response)
  else
    (response, [callEv])

/-- Forensics events of the unparsable-index anomaly (lines 251-266), over the
working string `r`. -/
def indexForensicsEvents (info : SectionInfo) (o : Oracle) (r : List Char) :
    List Event :=
  let fname := "FAILED-index-response-".data ++ info.name ++ "-".data ++
    fmtTimestamp o.now ++ ".txt".data
  let content := ("=== AI Response (Failed JSON Parse) ===\n".data ++
    "Section: ".data ++ info.title ++ "\n".data ++
    "Timestamp: ".data ++ o.isoNow ++ "\n".data ++
    "Response length: ".data ++ (toString r.length).data ++ " chars\n".data ++
    "Parse error: ".data ++ o.parseErrText ++ "\n".data ++
    "\n=== Full Response ===\n".data ++ r)
  if o.forensicsOk then
    [Event.writeFile o.outputDir fname content,
     Event.log ("DEBUG: Full response saved to: ".data ++ joinPath o.outputDir fname)]
  else
    [Event.log ("DEBUG: Failed to save forensics file: ".data ++ o.writeErrText)]

/-- The working string of `generate_index` after line 237: the raw response,
rebound to the fence capture when the stage-1 pattern matched. -/
def workingResponse (o : Oracle) : List Char :=
  (searchFence o.indexResponse).getD o.indexResponse

/-- Python `response[:500]`. -/
def pyFirst500 (r : List Char) : List Char := r.take 500

/-- Python `response[-500:]`. -/
def pyLast500 (r : List Char) : List Char := r.drop (r.length - 500)

/-- The four DEBUG diagnostics of the unparsable-index path (lines 269-272),
over the working string `r`. -/
def indexDebugEvents (r : List Char) : List Event :=
  [Event.log ("DEBUG: Failed to parse JSON from AI response".data),
   Event.log ("DEBUG: Response length: ".data ++ (toString r.length).data ++
     " chars".data),
   Event.log ("DEBUG: First 500 chars: ".data ++ pyFirst500 r),
   Event.log ("DEBUG: Last 500 chars: ".data ++ pyLast500 r)]

/-- Model of `AIProcessor.generate_index` (lines 178-274): one provider call;
the response is replaced by the fence capture when the stage-1 pattern
matches; direct parse, then the brace-span fallback; when both fail, the
forensics capture and diagnostics run and the call fails with the
`StructuredOutputError`. -/
def generate_index (info : SectionInfo) (text : List Char) (o : Oracle) :
    Except PyErr JVal × List Event :=
  let callEv := Event.aiCall indexSystemPrompt (indexPrompt info text)
  match extractStagesR (workingResponse o) with
  | some v => (Except.ok v, [callEv])
  | none =>
    (Except.error (StructuredOutputError o.parseErrText),
     callEv :: (indexForensicsEvents info o (workingResponse o) ++
       indexDebugEvents (workingResponse o)))

/-! ## Section processing (`process_section`, lines 303-354) -/

/-- Result dict of a successful `process_section` call. -/
structure ProcResult where
  summary : List Char
  index : List Char
  char_count : Nat
  line_count : Nat
deriving DecidableEq

/-- Summary artifact name, `{source_name}.digest.{section_name}.md`. -/
def digestName (info : SectionInfo) : List Char :=
  info.source_name ++ ".digest.".data ++ info.name ++ ".md".data

/-- Index artifact name, `{source_name}.index.{section_name}.json`. -/
def indexName (info : SectionInfo) : List Char :=
  info.source_name ++ ".index.".data ++ info.name ++ ".json".data

/-- Model of `process_section`: read the text file with the encoding fallback,
fail on empty or whitespace-only text before any generation, generate the
summary and the index, then write both artifacts and return the metrics. -/
def process_section (text_file : List Char) (bytes : List Nat)
    (info : SectionInfo) (output_dir : List Char) (o : Oracle) :
    Except PyErr ProcResult × List Event :=
  let text := readText bytes
  if isBlank text then
    (Except.error (EmptyInputError text_file), [])
  else
    let sres := generate_summary info text o
    match generate_index info text o with
    | (Except.error e, iev) => (Except.error e, sres.2 ++ iev)
    | (Except.ok idx, iev) =>
      (Except.ok
        { summary := joinPath output_dir (digestName info),
          index := joinPath output_dir (indexName info),
          char_count := text.length,
          line_count := text.count '\n' + 1 },
       sres.2 ++ iev ++
         [Event.writeFile output_dir (digestName info) sres.1,
          Event.writeFile output_dir (indexName info) (dumpJson2 idx)])

/-! ## Spec-side construction for the round-trip property -/

/-- Follows the words of the specification (section 8): wrapping a payload in
a fenced JSON code block.  This is the test-side construction the round-trip
claim quantifies over, not code of the processor. -/
def wrapFencedJson (s : List Char) : List Char :=
  fenceMark ++ jsonTag ++ '\n' :: (s ++ '\n' :: fenceMark)

/-! ## Helper lemmas about the fence matcher -/

theorem isPrefixOf_append_self (p t : List Char) : p.isPrefixOf (p ++ t) = true := by
  induction p with
  | nil => simp [List.isPrefixOf]
  | cons a as ih => simp [List.isPrefixOf, ih]

theorem isPrefixOf_fenceMark_false (c : Char) (t : List Char) (h : c ≠ btick) :
    fenceMark.isPrefixOf (c :: t) = false := by
  show ((btick == c) && (List.isPrefixOf [btick, btick] t)) = false
  rw [beq_eq_false_iff_ne.mpr (Ne.symm h), Bool.false_and]

theorem tryFence_eq_none (l : List Char) (h : fenceMark.isPrefixOf l = false) :
    tryFence l = none := by
  simp [tryFence, h]

theorem searchFence_eq_none (l : List Char) (h : hasTriple l = false) :
    searchFence l = none := by
  induction l with
  | nil => rfl
  | cons c r ih =>
    unfold hasTriple at h
    rw [Bool.or_eq_false_iff] at h
    unfold searchFence
    rw [tryFence_eq_none _ h.1]
    exact ih h.2

theorem fenceClose_append_rbrace (m t : List Char) (hm : btick ∉ m) :
    fenceClose (m ++ '}' :: t) = false := by
  induction m with
  | nil =>
    show fenceClose ('}' :: t) = false
    unfold fenceClose dropReWs
    rw [List.dropWhile_cons, if_neg (by decide)]
    exact isPrefixOf_fenceMark_false '}' t (by decide)
  | cons a m ih =>
    have ha : a ≠ btick := fun e => hm (e ▸ List.mem_cons_self a m)
    have hm' : btick ∉ m := fun e => hm (List.mem_cons_of_mem a e)
    show fenceClose (a :: (m ++ '}' :: t)) = false
    unfold fenceClose dropReWs
    rw [List.dropWhile_cons]
    by_cases hw : reWsChar a = true
    · rw [if_pos hw]
      exact ih hm'
    · rw [if_neg hw]
      exact isPrefixOf_fenceMark_false a _ ha

theorem lazyCapture_append (m : List Char) (t : List Char) (hm : btick ∉ m)
    (hclose : fenceClose t = true) :
    lazyCapture (m ++ '}' :: t) = some (m ++ ['}']) := by
  induction m with
  | nil =>
    show lazyCapture ('}' :: t) = some ['}']
    unfold lazyCapture
    rw [if_pos (by rw [hclose]; rfl)]
  | cons a m ih =>
    have hm' : btick ∉ m := fun e => hm (List.mem_cons_of_mem a e)
    show lazyCapture (a :: (m ++ '}' :: t)) = some (a :: (m ++ ['}']))
    unfold lazyCapture
    rw [if_neg, ih hm']
    · rfl
    · rw [fenceClose_append_rbrace m t hm', Bool.and_false]
      exact Bool.false_ne_true

theorem searchFence_wrap (mid : List Char) (hm : btick ∉ mid) :
    searchFence (wrapFencedJson ('{' :: (mid ++ ['}']))) =
      some ('{' :: (mid ++ ['}'])) := by
  show searchFence (btick :: btick :: btick :: 'j' :: 's' :: 'o' :: 'n' :: '\n' ::
    (('{' :: (mid ++ ['}'])) ++ '\n' :: fenceMark)) = some ('{' :: (mid ++ ['}']))
  unfold searchFence
  have hpre : fenceMark.isPrefixOf (btick :: btick :: btick :: 'j' :: 's' :: 'o' :: 'n' :: '\n' ::
      (('{' :: (mid ++ ['}'])) ++ '\n' :: fenceMark)) = true := by
    simp [fenceMark, List.isPrefixOf]
  have hbody : lazyCapture (mid ++ '}' :: '\n' :: fenceMark) = some (mid ++ ['}']) :=
    lazyCapture_append mid ('\n' :: fenceMark) hm (by decide)
  unfold tryFence
  rw [hpre]
  simp only [if_true]
  have hdrop : (btick :: btick :: btick :: 'j' :: 's' :: 'o' :: 'n' :: '\n' ::
      (('{' :: (mid ++ ['}'])) ++ '\n' :: fenceMark)).drop 3 =
      'j' :: 's' :: 'o' :: 'n' :: '\n' :: (('{' :: (mid ++ ['}'])) ++ '\n' :: fenceMark) := rfl
  rw [hdrop]
  have htag : jsonTag.isPrefixOf ('j' :: 's' :: 'o' :: 'n' :: '\n' ::
      (('{' :: (mid ++ ['}'])) ++ '\n' :: fenceMark)) = true := by
    simp [jsonTag, List.isPrefixOf]
  rw [if_pos htag]
  have hdrop4 : ('j' :: 's' :: 'o' :: 'n' :: '\n' ::
      (('{' :: (mid ++ ['}'])) ++ '\n' :: fenceMark)).drop 4 =
      '\n' :: (('{' :: (mid ++ ['}'])) ++ '\n' :: fenceMark) := rfl
  rw [hdrop4]
  have hws : dropReWs ('\n' :: (('{' :: (mid ++ ['}'])) ++ '\n' :: fenceMark)) =
      '{' :: (mid ++ '}' :: '\n' :: fenceMark) := by
    unfold dropReWs
    rw [List.dropWhile_cons, if_pos (by decide), List.cons_append, List.dropWhile_cons,
      if_neg (by decide), List.append_assoc]
    rfl
  rw [hws]
  simp [hbody]

/-! ## Helper lemmas about find and rfind -/

theorem findIdx_append_head (c : Char) (p t : List Char) (hp : c ∉ p) :
    findIdx c (p ++ c :: t) = some p.length := by
  induction p with
  | nil => simp [findIdx]
  | cons a as ih =>
    have ha : (a == c) = false :=
      beq_eq_false_iff_ne.mpr (fun e => hp (e ▸ List.mem_cons_self a as))
    have has : c ∉ as := fun h => hp (List.mem_cons_of_mem a h)
    show findIdx c (a :: (as ++ c :: t)) = some (as.length + 1)
    unfold findIdx
    rw [ha, ih has]
    rfl

theorem rfindIdx_eq_none (c : Char) (l : List Char) (h : c ∉ l) :
    rfindIdx c l = none := by
  induction l with
  | nil => rfl
  | cons a as ih =>
    have ha : (a == c) = false :=
      beq_eq_false_iff_ne.mpr (fun e => h (e ▸ List.mem_cons_self a as))
    have has : c ∉ as := fun hx => h (List.mem_cons_of_mem a hx)
    unfold rfindIdx
    rw [ih has, ha]
    rfl

theorem rfindIdx_append_last (c : Char) (p t : List Char) (ht : c ∉ t) :
    rfindIdx c (p ++ c :: t) = some p.length := by
  induction p with
  | nil =>
    show rfindIdx c (c :: t) = some 0
    unfold rfindIdx
    rw [rfindIdx_eq_none c t ht]
    simp
  | cons a as ih =>
    show rfindIdx c (a :: (as ++ c :: t)) = some (as.length + 1)
    unfold rfindIdx
    rw [ih]

/-! ## Reduction lemmas for the generators and the processor -/

theorem generate_summary_fst (info : SectionInfo) (text : List Char) (o : Oracle) :
    (generate_summary info text o).1 = o.summaryResponse := by
  unfold generate_summary
  by_cases h : o.summaryResponse.length < 100 <;> simp [h]

theorem generate_index_of_ok (info : SectionInfo) (text : List Char) (o : Oracle)
    (v : JVal) (h : extractStagesR (workingResponse o) = some v) :
    generate_index info text o =
      (Except.ok v, [Event.aiCall indexSystemPrompt (indexPrompt info text)]) := by
  unfold generate_index
  rw [h]

theorem generate_index_of_err (info : SectionInfo) (text : List Char) (o : Oracle)
    (h : extractStagesR (workingResponse o) = none) :
    generate_index info text o =
      (Except.error (StructuredOutputError o.parseErrText),
       Event.aiCall indexSystemPrompt (indexPrompt info text) ::
         (indexForensicsEvents info o (workingResponse o) ++
           indexDebugEvents (workingResponse o))) := by
  unfold generate_index
  rw [h]

theorem stage2Parse_prose (p1 mid p2 : List Char) (j : JVal)
    (h1 : '{' ∉ p1) (h2 : '}' ∉ p2)
    (hj : loads ('{' :: (mid ++ ['}'])) = some j) :
    stage2Parse (p1 ++ ('{' :: (mid ++ ['}'])) ++ p2) = some j := by
  have hfind : findIdx '{' (p1 ++ ('{' :: (mid ++ ['}'])) ++ p2) = some p1.length := by
    rw [List.append_assoc, List.cons_append]
    exact findIdx_append_head '{' p1 ((mid ++ ['}']) ++ p2) h1
  have hshape : p1 ++ ('{' :: (mid ++ ['}'])) ++ p2 = (p1 ++ '{' :: mid) ++ '}' :: p2 := by
    simp [List.append_assoc]
  have hrfind : rfindIdx '}' (p1 ++ ('{' :: (mid ++ ['}'])) ++ p2) =
      some (p1.length + mid.length + 1) := by
    rw [hshape, rfindIdx_append_last '}' (p1 ++ '{' :: mid) p2 h2]
    congr 1
    simp [List.length_append]
    omega
  have hpf : pyFind '{' (p1 ++ ('{' :: (mid ++ ['}'])) ++ p2) = (p1.length : Int) := by
    unfold pyFind
    rw [hfind]
  have hpr : pyRfind '}' (p1 ++ ('{' :: (mid ++ ['}'])) ++ p2) =
      ((p1.length + mid.length + 1 : Nat) : Int) := by
    unfold pyRfind
    rw [hrfind]
  unfold stage2Parse
  rw [hpf, hpr]
  rw [if_pos (by constructor <;> omega)]
  unfold pySlice
  have hcast : ((p1.length + mid.length + 1 : Nat) : Int) + 1 =
      ((p1.length + mid.length + 2 : Nat) : Int) := by push_cast; ring
  rw [hcast, Int.toNat_ofNat, Int.toNat_ofNat]
  have hsub : p1.length + mid.length + 2 - p1.length = mid.length + 2 := by omega
  rw [hsub, List.append_assoc, List.drop_left]
  have hlen : mid.length + 2 = ('{' :: (mid ++ ['}'])).length := by simp
  rw [hlen, List.take_left]
  exact hj

/-! ## Claims -/

/-- C1 (amended): when no fenced block matches, and the direct parse of the
full response fails, stage 2 of the extractor locates the first opening brace
and the last closing brace of the full response and parses the inclusive
span; in particular, for every response made of brace-free non-JSON prose
around one parseable object span, with no triple backtick anywhere,
extraction succeeds and returns the parse of that span.  The original claim
states that the brace scan runs over the full response string whenever stage
1 is absent or its contents fail to parse; the counterexample shows that
after a matched but unparsable fenced block the code scans only the fenced
capture, so the scan scope is amended to the working string. -/
theorem claim_C1 (p1 mid p2 : List Char) (j : JVal)
    (hfence : hasTriple (p1 ++ ('{' :: (mid ++ ['}'])) ++ p2) = false)
    (h1 : '{' ∉ p1) (h2 : '}' ∉ p2)
    (hwhole : loads (p1 ++ ('{' :: (mid ++ ['}'])) ++ p2) = none)
    (hspan : loads ('{' :: (mid ++ ['}'])) = some j) :
    extractStages (p1 ++ ('{' :: (mid ++ ['}'])) ++ p2) =
      stage2Parse (p1 ++ ('{' :: (mid ++ ['}'])) ++ p2) ∧
    extractStages (p1 ++ ('{' :: (mid ++ ['}'])) ++ p2) = some j := by
  have hs : extractStages (p1 ++ ('{' :: (mid ++ ['}'])) ++ p2) =
      extractStagesR (p1 ++ ('{' :: (mid ++ ['}'])) ++ p2) := by
    unfold extractStages
    rw [searchFence_eq_none _ hfence]
    rfl
  have hr : extractStagesR (p1 ++ ('{' :: (mid ++ ['}'])) ++ p2) =
      stage2Parse (p1 ++ ('{' :: (mid ++ ['}'])) ++ p2) := by
    unfold extractStagesR
    rw [hwhole]
  exact ⟨hs.trans hr,
    (hs.trans hr).trans (stage2Parse_prose p1 mid p2 j h1 h2 hspan)⟩

/-- C1 witness: a concrete prose-wrapped object span is extracted by stage
2. -/
theorem claim_C1_witness :
    hasTriple (("Sure, here is the index: ".data) ++
      ('{' :: ("\"a\": [1, 2]".data ++ ['}'])) ++ (" Hope that helps.".data)) = false ∧
    loads (("Sure, here is the index: ".data) ++
      ('{' :: ("\"a\": [1, 2]".data ++ ['}'])) ++ (" Hope that helps.".data)) = none ∧
    loads ('{' :: ("\"a\": [1, 2]".data ++ ['}'])) =
      some (JVal.obj [("a".data, JVal.arr [JVal.num 1, JVal.num 2])]) ∧
    extractStages (("Sure, here is the index: ".data) ++
      ('{' :: ("\"a\": [1, 2]".data ++ ['}'])) ++ (" Hope that helps.".data)) =
      some (JVal.obj [("a".data, JVal.arr [JVal.num 1, JVal.num 2])]) :=
  ⟨by decide, rfl, rfl,
    (claim_C1 ("Sure, here is the index: ".data) ("\"a\": [1, 2]".data)
      (" Hope that helps.".data)
      (JVal.obj [("a".data, JVal.arr [JVal.num 1, JVal.num 2])])
      (by decide) (by decide) (by decide) rfl rfl).2⟩

/-- C1 counterexample: on the response `\x7b"a": "```json \x7bb\x7d ```"\x7d`
the stage-1 pattern matches inside the string literal and the unparsable
capture `\x7bb\x7d` is all that stage 2 scans, so the code fails — while a
brace scan of the full response string, as the claim describes, parses the
whole response successfully. -/
theorem claim_C1_counterexample :
    stage2Parse ("\x7b\"a\": \"```json \x7bb\x7d ```\"\x7d".data) =
      some (JVal.obj [("a".data, JVal.str ("```json \x7bb\x7d ```".data))]) ∧
    extractStages ("\x7b\"a\": \"```json \x7bb\x7d ```\"\x7d".data) = none :=
  ⟨rfl, rfl⟩

/-- C2 (amended): for every serialization of a JSON object that contains no
backtick character, wrapping it in a fenced JSON code block and running the
extractor captures exactly the payload, byte for byte, and returns its parse.
The original claim quantifies over all JSON objects; the counterexample shows
that a payload whose string content contains a closing brace followed by a
triple backtick truncates the lazy fence capture, so the backtick-free
restriction is forced. -/
theorem claim_C2 (mid : List Char) (j : JVal) (hb : btick ∉ mid)
    (hj : loads ('{' :: (mid ++ ['}'])) = some j) :
    searchFence (wrapFencedJson ('{' :: (mid ++ ['}']))) =
      some ('{' :: (mid ++ ['}'])) ∧
    extractStages (wrapFencedJson ('{' :: (mid ++ ['}']))) = some j := by
  have hsf := searchFence_wrap mid hb
  refine ⟨hsf, ?_⟩
  unfold extractStages
  rw [hsf]
  show extractStagesR ('{' :: (mid ++ ['}'])) = some j
  unfold extractStagesR
  rw [hj]

/-- C2 witness: a concrete backtick-free object round-trips through wrapping
and extraction. -/
theorem claim_C2_witness :
    btick ∉ ("\"a\": 1".data) ∧
    loads ('{' :: ("\"a\": 1".data ++ ['}'])) =
      some (JVal.obj [("a".data, JVal.num 1)]) ∧
    extractStages (wrapFencedJson ('{' :: ("\"a\": 1".data ++ ['}']))) =
      some (JVal.obj [("a".data, JVal.num 1)]) :=
  ⟨by decide, rfl,
    (claim_C2 ("\"a\": 1".data) (JVal.obj [("a".data, JVal.num 1)])
      (by decide) rfl).2⟩

/-- C2 counterexample: the JSON object `\x7b"a": "\x7d```"\x7d` parses, but
wrapping its serialization in a fenced JSON block and extracting fails: the
lazy fence pattern ends its capture at the closing brace inside the string
literal and both parse stages fail on the truncated capture. -/
theorem claim_C2_counterexample :
    loads ("\x7b\"a\": \"\x7d```\"\x7d".data) =
      some (JVal.obj [("a".data, JVal.str ("\x7d```".data))]) ∧
    extractStages (wrapFencedJson ("\x7b\"a\": \"\x7d```\"\x7d".data)) = none :=
  ⟨rfl, rfl⟩

/-- Sample section metadata used by the concrete witnesses. -/
def si0 : SectionInfo :=
  ⟨"intro".data, "Introduction".data, "d".data, "v1".data, "doc1".data⟩

/-- Sample oracle whose index response holds no JSON at all. -/
def o3 : Oracle :=
  ⟨"short".data, "no json here".data, "perr".data, "werr".data, "/out".data,
   "iso".data, ⟨2026, 10, 12, 3, 4, 5⟩, true⟩

/-- Sample oracle whose index response is the empty JSON object and whose
summary response is suspiciously short. -/
def o4 : Oracle :=
  ⟨"short".data, "\x7b\x7d".data, "p".data, "w".data, "/out".data,
   "iso".data, ⟨2026, 10, 12, 3, 4, 5⟩, true⟩

/-- C3 (amended): for every index response on which all extraction stages
fail, `generate_index` fails with the `StructuredOutputError`, after first
writing a forensics file whose name embeds the section name and the
second-resolution run timestamp, and then emitting diagnostic context
consisting of the response length and the first and last 500 characters —
all taken from the working response string, that is the fenced capture when
stage 1 matched and the full raw response otherwise.  The original claim
reads the diagnostics as being of the raw response; the counterexample shows
they are of the capture when a fence matched. -/
theorem claim_C3 (info : SectionInfo) (text : List Char) (o : Oracle)
    (hfail : extractStagesR (workingResponse o) = none)
    (hok : o.forensicsOk = true) :
    generate_index info text o =
      (Except.error (StructuredOutputError o.parseErrText),
       [Event.aiCall indexSystemPrompt (indexPrompt info text),
        Event.writeFile o.outputDir
          ("FAILED-index-response-".data ++ info.name ++ "-".data ++
            fmtTimestamp o.now ++ ".txt".data)
          ("=== AI Response (Failed JSON Parse) ===\n".data ++
            "Section: ".data ++ info.title ++ "\n".data ++
            "Timestamp: ".data ++ o.isoNow ++ "\n".data ++
            "Response length: ".data ++ (toString (workingResponse o).length).data ++
            " chars\n".data ++
            "Parse error: ".data ++ o.parseErrText ++ "\n".data ++
            "\n=== Full Response ===\n".data ++ workingResponse o),
        Event.log ("DEBUG: Full response saved to: ".data ++
          joinPath o.outputDir ("FAILED-index-response-".data ++ info.name ++
            "-".data ++ fmtTimestamp o.now ++ ".txt".data)),
        Event.log ("DEBUG: Failed to parse JSON from AI response".data),
        Event.log ("DEBUG: Response length: ".data ++
          (toString (workingResponse o).length).data ++ " chars".data),
        Event.log ("DEBUG: First 500 chars: ".data ++ pyFirst500 (workingResponse o)),
        Event.log ("DEBUG: Last 500 chars: ".data ++ pyLast500 (workingResponse o))]) := by
  rw [generate_index_of_err info text o hfail]
  simp [indexForensicsEvents, indexDebugEvents, hok]

/-- C3 witness: a response with no JSON fails extraction and the call returns
the structured-output error. -/
theorem claim_C3_witness :
    extractStagesR (workingResponse o3) = none ∧ o3.forensicsOk = true ∧
    (generate_index si0 ("t".data) o3).1 =
      Except.error (StructuredOutputError o3.parseErrText) := by
  refine ⟨rfl, rfl, ?_⟩
  rw [claim_C3 si0 ("t".data) o3 rfl rfl]

/-- C3 counterexample: on `intro ```json \x7bx\x7d ``` outro` all stages
fail, and the emitted diagnostics describe the three-character capture
`\x7bx\x7d` — not the 27-character raw response, as the claim reads. -/
theorem claim_C3_counterexample :
    (generate_index si0 ("t".data)
      ⟨"short".data, "intro ```json \x7bx\x7d ``` outro".data, "p".data,
       "w".data, "/out".data, "iso".data, ⟨2026, 10, 12, 3, 4, 5⟩, true⟩).1 =
      Except.error (StructuredOutputError ("p".data)) ∧
    Event.log ("DEBUG: Response length: 3 chars".data) ∈
      (generate_index si0 ("t".data)
        ⟨"short".data, "intro ```json \x7bx\x7d ``` outro".data, "p".data,
         "w".data, "/out".data, "iso".data, ⟨2026, 10, 12, 3, 4, 5⟩, true⟩).2 ∧
    Event.log ("DEBUG: Response length: 27 chars".data) ∉
      (generate_index si0 ("t".data)
        ⟨"short".data, "intro ```json \x7bx\x7d ``` outro".data, "p".data,
         "w".data, "/out".data, "iso".data, ⟨2026, 10, 12, 3, 4, 5⟩, true⟩).2 ∧
    ("intro ```json \x7bx\x7d ``` outro".data).length = 27 :=
  ⟨rfl, by decide, by decide, by decide⟩

/-- C4: in both prompt templates the embedded source text is truncated to at
most 50000 characters, and the truncation marker is appended exactly when
the text exceeds 50000 characters: text of at most 50000 characters appears
whole with no marker, and longer text appears as its first 50000 characters
followed by the marker. -/
theorem claim_C4 (info : SectionInfo) (text : List Char) :
    (text.length ≤ 50000 →
      summaryPrompt info text =
        summaryHead info ++ text ++ "  \n\n".data ++ summaryTail ∧
      indexPrompt info text =
        indexHead info ++ text ++ "\n\n".data ++ indexTail) ∧
    (50000 < text.length →
      summaryPrompt info text =
        summaryHead info ++ text.take 50000 ++ "  \n\n".data ++
          (truncMarker ++ summaryTail) ∧
      indexPrompt info text =
        indexHead info ++ text.take 50000 ++ "\n\n".data ++
          (truncMarker ++ indexTail)) := by
  constructor
  · intro h
    have ht : text.take 50000 = text := List.take_of_length_le h
    constructor
    · unfold summaryPrompt
      rw [if_neg (by omega), ht]
      simp
    · unfold indexPrompt
      rw [if_neg (by omega), ht]
      simp
  · intro h
    constructor
    · unfold summaryPrompt
      rw [if_pos h]
      simp [List.append_assoc]
    · unfold indexPrompt
      rw [if_pos h]
      simp [List.append_assoc]

/-- C4 witness: text of exactly 50000 characters appears whole with no
marker; text of exactly 50001 characters is cut to its first 50000
characters and the marker follows. -/
theorem claim_C4_witness :
    (List.replicate 50000 'a').length ≤ 50000 ∧
    50000 < (List.replicate 50001 'a').length ∧
    summaryPrompt si0 (List.replicate 50000 'a') =
      summaryHead si0 ++ List.replicate 50000 'a' ++ "  \n\n".data ++ summaryTail ∧
    summaryPrompt si0 (List.replicate 50001 'a') =
      summaryHead si0 ++ (List.replicate 50001 'a').take 50000 ++ "  \n\n".data ++
        (truncMarker ++ summaryTail) := by
  have h1 : (List.replicate 50000 'a').length ≤ 50000 := by
    rw [List.length_replicate]
  have h2 : 50000 < (List.replicate 50001 'a').length := by
    rw [List.length_replicate]
    omega
  exact ⟨h1, h2, ((claim_C4 si0 (List.replicate 50000 'a')).1 h1).1,
    ((claim_C4 si0 (List.replicate 50001 'a')).2 h2).1⟩

/-- C5: empty or whitespace-only decoded text makes `process_section` fail
with the `EmptyInputError`, with an empty event trace: in particular no
provider call is ever made. -/
theorem claim_C5 (text_file : List Char) (bytes : List Nat) (info : SectionInfo)
    (output_dir : List Char) (o : Oracle)
    (h : isBlank (readText bytes) = true) :
    process_section text_file bytes info output_dir o =
      (Except.error (EmptyInputError text_file), []) ∧
    ∀ sys p, Event.aiCall sys p ∉
      (process_section text_file bytes info output_dir o).2 := by
  have he : process_section text_file bytes info output_dir o =
      (Except.error (EmptyInputError text_file), []) := by
    simp [process_section, h]
  refine ⟨he, fun sys p => ?_⟩
  rw [he]
  exact List.not_mem_nil _

/-- C5 witness: a whitespace-only file is rejected with no events. -/
theorem claim_C5_witness :
    isBlank (readText [32, 32, 10]) = true ∧
    process_section ("f.txt".data) [32, 32, 10] si0 ("/o".data) o3 =
      (Except.error (EmptyInputError ("f.txt".data)), []) :=
  ⟨by decide,
    (claim_C5 ("f.txt".data) [32, 32, 10] si0 ("/o".data) o3 (by decide)).1⟩

/-- C6: a failure of the forensics write is caught and logged to diagnostic
output and never escalates: the value returned by `generate_summary` and the
outcome of `generate_index` are the same whether or not the forensics write
succeeded, and on a failed write the caught-error DEBUG line is emitted. -/
theorem claim_C6 (info : SectionInfo) (text sr ir pe we od iso : List Char)
    (now : PyDateTime) (b1 b2 : Bool) :
    (generate_summary info text ⟨sr, ir, pe, we, od, iso, now, b1⟩).1 =
      (generate_summary info text ⟨sr, ir, pe, we, od, iso, now, b2⟩).1 ∧
    (generate_index info text ⟨sr, ir, pe, we, od, iso, now, b1⟩).1 =
      (generate_index info text ⟨sr, ir, pe, we, od, iso, now, b2⟩).1 ∧
    (sr.length < 100 →
      Event.log ("DEBUG: Failed to save forensics file: ".data ++ we) ∈
        (generate_summary info text ⟨sr, ir, pe, we, od, iso, now, false⟩).2) ∧
    (extractStagesR ((searchFence ir).getD ir) = none →
      Event.log ("DEBUG: Failed to save forensics file: ".data ++ we) ∈
        (generate_index info text ⟨sr, ir, pe, we, od, iso, now, false⟩).2) := by
  refine ⟨?_, ?_, ?_, ?_⟩
  · rw [generate_summary_fst, generate_summary_fst]
  · cases hE : extractStagesR (workingResponse ⟨sr, ir, pe, we, od, iso, now, b1⟩) with
    | some v =>
      have hE2 : extractStagesR (workingResponse ⟨sr, ir, pe, we, od, iso, now, b2⟩) =
          some v := hE
      rw [generate_index_of_ok _ _ _ _ hE, generate_index_of_ok _ _ _ _ hE2]
    | none =>
      have hE2 : extractStagesR (workingResponse ⟨sr, ir, pe, we, od, iso, now, b2⟩) =
          none := hE
      rw [generate_index_of_err _ _ _ hE, generate_index_of_err _ _ _ hE2]
  · intro h
    simp [generate_summary, h, shortSummaryEvents]
  · intro h
    have hE : extractStagesR (workingResponse ⟨sr, ir, pe, we, od, iso, now, false⟩) =
        none := h
    rw [generate_index_of_err _ _ _ hE]
    simp [indexForensicsEvents]

/-- C6 witness: with a short summary and an unparsable index response, the
outcomes with and without a working forensics write agree, and the failed
write is logged. -/
theorem claim_C6_witness :
    (generate_summary si0 ("t".data)
      ⟨"hi".data, "zzz".data, "p".data, "w".data, "/o".data, "i".data,
       ⟨2026, 1, 2, 3, 4, 5⟩, true⟩).1 =
      (generate_summary si0 ("t".data)
        ⟨"hi".data, "zzz".data, "p".data, "w".data, "/o".data, "i".data,
         ⟨2026, 1, 2, 3, 4, 5⟩, false⟩).1 ∧
    (generate_index si0 ("t".data)
      ⟨"hi".data, "zzz".data, "p".data, "w".data, "/o".data, "i".data,
       ⟨2026, 1, 2, 3, 4, 5⟩, true⟩).1 =
      (generate_index si0 ("t".data)
        ⟨"hi".data, "zzz".data, "p".data, "w".data, "/o".data, "i".data,
         ⟨2026, 1, 2, 3, 4, 5⟩, false⟩).1 ∧
    Event.log ("DEBUG: Failed to save forensics file: ".data ++ "w".data) ∈
      (generate_summary si0 ("t".data)
        ⟨"hi".data, "zzz".data, "p".data, "w".data, "/o".data, "i".data,
         ⟨2026, 1, 2, 3, 4, 5⟩, false⟩).2 ∧
    Event.log ("DEBUG: Failed to save forensics file: ".data ++ "w".data) ∈
      (generate_index si0 ("t".data)
        ⟨"hi".data, "zzz".data, "p".data, "w".data, "/o".data, "i".data,
         ⟨2026, 1, 2, 3, 4, 5⟩, false⟩).2 := by
  have h := claim_C6 si0 ("t".data) ("hi".data) ("zzz".data) ("p".data) ("w".data)
    ("/o".data) ("i".data) ⟨2026, 1, 2, 3, 4, 5⟩ true false
  exact ⟨h.1, h.2.1, h.2.2.1 (by decide), h.2.2.2 rfl⟩

/-- Shared reduction: a nonempty text and a successful extraction give the
full successful run of `process_section`, with both artifacts written — the
index pretty-printed — and the metrics of the decoded text. -/
theorem process_section_of_ok (text_file : List Char) (bytes : List Nat)
    (info : SectionInfo) (output_dir : List Char) (o : Oracle) (v : JVal)
    (hne : isBlank (readText bytes) = false)
    (hidx : extractStagesR (workingResponse o) = some v) :
    process_section text_file bytes info output_dir o =
      (Except.ok
        { summary := joinPath output_dir (digestName info),
          index := joinPath output_dir (indexName info),
          char_count := (readText bytes).length,
          line_count := (readText bytes).count '\n' + 1 },
       (generate_summary info (readText bytes) o).2 ++
         ([Event.aiCall indexSystemPrompt (indexPrompt info (readText bytes))] ++
           [Event.writeFile output_dir (digestName info) o.summaryResponse,
            Event.writeFile output_dir (indexName info) (dumpJson2 v)])) := by
  have hidxeq := generate_index_of_ok info (readText bytes) o v hidx
  simp only [process_section, hne, Bool.false_eq_true, if_false, hidxeq,
    generate_summary_fst, List.append_assoc]

/-- C9: a successful run writes artifacts under the deterministic names
`{source_name}.digest.{section_name}.md` and
`{source_name}.index.{section_name}.json`, serializes the index with the
pretty-printing encoder, and reports a character count equal to the length of
the decoded input text. -/
theorem claim_C9 (text_file : List Char) (bytes : List Nat) (info : SectionInfo)
    (output_dir : List Char) (o : Oracle) (v : JVal)
    (hne : isBlank (readText bytes) = false)
    (hidx : extractStagesR (workingResponse o) = some v) :
    process_section text_file bytes info output_dir o =
      (Except.ok
        { summary := joinPath output_dir
            (info.source_name ++ ".digest.".data ++ info.name ++ ".md".data),
          index := joinPath output_dir
            (info.source_name ++ ".index.".data ++ info.name ++ ".json".data),
          char_count := (readText bytes).length,
          line_count := (readText bytes).count '\n' + 1 },
       (generate_summary info (readText bytes) o).2 ++
         ([Event.aiCall indexSystemPrompt (indexPrompt info (readText bytes))] ++
           [Event.writeFile output_dir
              (info.source_name ++ ".digest.".data ++ info.name ++ ".md".data)
              o.summaryResponse,
            Event.writeFile output_dir
              (info.source_name ++ ".index.".data ++ info.name ++ ".json".data)
              (dumpJson2 v)])) :=
  process_section_of_ok text_file bytes info output_dir o v hne hidx

/-- C9 witness: a concrete successful run produces `doc1.digest.intro.md` and
`doc1.index.intro.json` and a character count equal to the input length. -/
theorem claim_C9_witness :
    isBlank (readText [104, 105]) = false ∧
    extractStagesR (workingResponse o4) = some (JVal.obj []) ∧
    (process_section ("f.txt".data) [104, 105] si0 ("/o".data) o4).1 =
      Except.ok
        { summary := joinPath ("/o".data)
            (si0.source_name ++ ".digest.".data ++ si0.name ++ ".md".data),
          index := joinPath ("/o".data)
            (si0.source_name ++ ".index.".data ++ si0.name ++ ".json".data),
          char_count := (readText [104, 105]).length,
          line_count := (readText [104, 105]).count '\n' + 1 } := by
  refine ⟨by decide, rfl, ?_⟩
  rw [claim_C9 ("f.txt".data) [104, 105] si0 ("/o".data) o4 (JVal.obj [])
    (by decide) rfl]

/-- C10: a summary response shorter than 100 characters is non-fatal:
`generate_summary` still returns the response after the forensics events,
`process_section` writes it to the summary artifact, and the section run
completes successfully. -/
theorem claim_C10 (text_file : List Char) (bytes : List Nat) (info : SectionInfo)
    (output_dir : List Char) (o : Oracle) (v : JVal)
    (hshort : o.summaryResponse.length < 100)
    (hne : isBlank (readText bytes) = false)
    (hidx : extractStagesR (workingResponse o) = some v) :
    (generate_summary info (readText bytes) o).1 = o.summaryResponse ∧
    (generate_summary info (readText bytes) o).2 =
      Event.aiCall summarySystemPrompt (summaryPrompt info (readText bytes)) ::
        shortSummaryEvents info o o.summaryResponse ∧
    Event.writeFile output_dir (digestName info) o.summaryResponse ∈
      (process_section text_file bytes info output_dir o).2 ∧
    (process_section text_file bytes info output_dir o).1 =
      Except.ok
        { summary := joinPath output_dir (digestName info),
          index := joinPath output_dir (indexName info),
          char_count := (readText bytes).length,
          line_count := (readText bytes).count '\n' + 1 } := by
  have hps := process_section_of_ok text_file bytes info output_dir o v hne hidx
  refine ⟨generate_summary_fst info (readText bytes) o, ?_, ?_, ?_⟩
  · simp [generate_summary, hshort]
  · rw [hps]
    simp
  · rw [hps]

/-- C10 witness: a five-character summary response is still written and the
run succeeds. -/
theorem claim_C10_witness :
    o4.summaryResponse.length < 100 ∧
    (generate_summary si0 (readText [104, 105]) o4).1 = o4.summaryResponse ∧
    Event.writeFile ("/o".data) (digestName si0) o4.summaryResponse ∈
      (process_section ("g.txt".data) [104, 105] si0 ("/o".data) o4).2 ∧
    (process_section ("g.txt".data) [104, 105] si0 ("/o".data) o4).1 =
      Except.ok
        { summary := joinPath ("/o".data) (digestName si0),
          index := joinPath ("/o".data) (indexName si0),
          char_count := (readText [104, 105]).length,
          line_count := (readText [104, 105]).count '\n' + 1 } := by
  have h := claim_C10 ("g.txt".data) [104, 105] si0 ("/o".data) o4 (JVal.obj [])
    (by decide) (by decide) rfl
  exact ⟨by decide, h.1, h.2.2.1, h.2.2.2⟩

/-- C7: the read step is total over byte sequences: input invalid under UTF-8
is read through the latin-1 fallback, whose codec accepts every byte sequence
(one character per byte, before the text-mode newline translation), and such
input is still read successfully and processed without error to a successful
result over the decoded text. -/
theorem claim_C7 (text_file : List Char) (bytes : List Nat) (info : SectionInfo)
    (output_dir : List Char) (o : Oracle) (v : JVal)
    (hbad : utf8Decode bytes = none)
    (hne : isBlank (readText bytes) = false)
    (hidx : extractStagesR (workingResponse o) = some v) :
    readText bytes = nlTranslate (latin1Decode bytes) ∧
    (latin1Decode bytes).length = bytes.length ∧
    (process_section text_file bytes info output_dir o).1 =
      Except.ok
        { summary := joinPath output_dir (digestName info),
          index := joinPath output_dir (indexName info),
          char_count := (readText bytes).length,
          line_count := (readText bytes).count '\n' + 1 } := by
  have hrt : readText bytes = nlTranslate (latin1Decode bytes) := by
    unfold readText
    rw [hbad]
  have hlen : (latin1Decode bytes).length = bytes.length := by
    unfold latin1Decode
    rw [List.length_map]
  have hps := process_section_of_ok text_file bytes info output_dir o v hne hidx
  refine ⟨hrt, hlen, ?_⟩
  rw [hps]

/-- C7 witness: the byte sequence `[72, 255, 13, 10, 105]` is invalid UTF-8
and holds a CRLF pair; it is read through latin-1 with newline translation to
the four characters `H`, `ÿ`, LF, `i` and processed to a successful result
with a character count of four. -/
theorem claim_C7_witness :
    utf8Decode [72, 255, 13, 10, 105] = none ∧
    isBlank (readText [72, 255, 13, 10, 105]) = false ∧
    (readText [72, 255, 13, 10, 105]).length = 4 ∧
    (process_section ("h.txt".data) [72, 255, 13, 10, 105] si0 ("/o".data) o4).1 =
      Except.ok
        { summary := joinPath ("/o".data) (digestName si0),
          index := joinPath ("/o".data) (indexName si0),
          char_count := (readText [72, 255, 13, 10, 105]).length,
          line_count := (readText [72, 255, 13, 10, 105]).count '\n' + 1 } := by
  have h := claim_C7 ("h.txt".data) [72, 255, 13, 10, 105] si0 ("/o".data) o4
    (JVal.obj []) (by decide) (by decide) rfl
  exact ⟨by decide, by decide, by decide, h.2.2⟩

/-- C8: for both provider variants the absence of the provider-specific
credential environment variable is a fatal error at client construction —
`setup_client` fails before any request value can exist — and an unsupported
provider kind is likewise fatal at construction. -/
theorem claim_C8 (env : PyEnv) (model : Option (List Char)) :
    (env.anthropic_available = true → env.anthropic_api_key = none →
      setup_client ("anthropic".data) model env =
        Except.error (PyErr.runtimeError
          ("ANTHROPIC_API_KEY environment variable not set".data))) ∧
    (env.openai_available = true → env.openai_api_key = none →
      setup_client ("openai".data) model env =
        Except.error (PyErr.runtimeError
          ("OPENAI_API_KEY environment variable not set".data))) ∧
    (∀ p, pyLower p ≠ "anthropic".data → pyLower p ≠ "openai".data →
      setup_client p model env =
        Except.error (PyErr.valueError
          ("Unsupported AI provider: ".data ++ pyLower p))) := by
  refine ⟨?_, ?_, ?_⟩
  · intro ha hk
    simp only [setup_client]
    rw [show pyLower ("anthropic".data) = "anthropic".data from by decide]
    rw [if_pos rfl, ha, if_neg (by decide), hk]
  · intro ha hk
    simp only [setup_client]
    rw [show pyLower ("openai".data) = "openai".data from by decide]
    rw [if_neg (by decide), if_pos rfl, ha, if_neg (by decide), hk]
  · intro p h1 h2
    simp only [setup_client]
    rw [if_neg h1, if_neg h2]

/-- C8 witness: the three construction-time failures at concrete inputs. -/
theorem claim_C8_witness :
    setup_client ("anthropic".data) none ⟨true, true, none, none⟩ =
      Except.error (PyErr.runtimeError
        ("ANTHROPIC_API_KEY environment variable not set".data)) ∧
    setup_client ("openai".data) none ⟨true, true, none, none⟩ =
      Except.error (PyErr.runtimeError
        ("OPENAI_API_KEY environment variable not set".data)) ∧
    setup_client ("gemini".data) none ⟨true, true, none, none⟩ =
      Except.error (PyErr.valueError
        ("Unsupported AI provider: ".data ++ pyLower ("gemini".data))) := by
  have h := claim_C8 ⟨true, true, none, none⟩ none
  exact ⟨h.1 rfl rfl, h.2.1 rfl rfl, h.2.2 ("gemini".data) (by decide) (by decide)⟩

end DocAI
